import Mathlib

/-!
# plugins.h: the plugin frame exchange interface

A shallow embedding of the declarations of `plugins.h` (version macros, frame
data model, return codes, integer result types of the operations), followed by
a handle table modelled from the specification for the operations that the
header only declares.

Machine integers are `Int`/`Nat` with explicit wrap-around.
-/

namespace Plugins

/-! ## Machine integer conversions -/

/-- Conversion of an integer to `int32_t`: reduction modulo `2^32` into
`[-2^31, 2^31)`. -/
def int32_of (x : Int) : Int := (x + 2147483648) % 4294967296 - 2147483648

/-- Conversion of an integer to `int64_t`: reduction modulo `2^64` into
`[-2^63, 2^63)`. On an `int32_t` value this is sign extension. -/
def int64_of (x : Int) : Int :=
  (x + 9223372036854775808) % 18446744073709551616 - 9223372036854775808

/-- Largest value of `uint32_t`. -/
def UINT32_MAX : Nat := 4294967295

/-- Largest value of `int32_t`. -/
def INT32_MAX : Nat := 2147483647

/-- Largest value of `int64_t`. -/
def INT64_MAX : Nat := 9223372036854775807

/-! ## Version macros (plugins.h, lines 4-11) -/

def PLUGINS_VERSION_MAJOR : Nat := 0

def PLUGINS_VERSION_MINOR : Nat := 0

def PLUGINS_VERSION_PATCH : Nat := 2

/-- The body of the `PLUGINS_VERSION` macro, with the three version macros it
reads taken as arguments. C evaluates it in `int`, taken as 32 bits wide with
wrap-around: each product and each sum is reduced to `int32_t`. -/
def plugins_version (major minor patch : Nat) : Int :=
  int32_of (int32_of (int32_of ((major : Int) * 10000) + int32_of ((minor : Int) * 100))
    + (patch : Int))

/-- The `PLUGINS_VERSION` macro at the declared version. -/
def PLUGINS_VERSION : Int :=
  plugins_version PLUGINS_VERSION_MAJOR PLUGINS_VERSION_MINOR PLUGINS_VERSION_PATCH

/-- Lexicographic order on version triples `(major, minor, patch)`. -/
def version_lex_lt (a b : Nat × Nat × Nat) : Prop :=
  a.1 < b.1 ∨ (a.1 = b.1 ∧ (a.2.1 < b.2.1 ∨ (a.2.1 = b.2.1 ∧ a.2.2 < b.2.2)))

instance (a b : Nat × Nat × Nat) : Decidable (version_lex_lt a b) := by
  unfold version_lex_lt; infer_instance

/-- The combined number of a version, computed without overflow, is within
`int`. -/
def version_fits_int (major minor patch : Nat) : Prop :=
  major * 10000 + minor * 100 + patch ≤ INT32_MAX

instance (major minor patch : Nat) : Decidable (version_fits_int major minor patch) := by
  unfold version_fits_int; infer_instance

/-! ## Data model (plugins.h, lines 16-121) -/

structure PluginRational where
  Numerator : Nat
  Denominator : Nat
  deriving DecidableEq, Repr

inductive ColourFormat where
  | cfRGB
  | cfYUV
  deriving DecidableEq, Repr

inductive PluginDataType where
  | pdtNone
  | pdtVideo
  | pdtAudio
  | pdtAncillary
  deriving DecidableEq, Repr

/-- Number of bytes of the `uuid` array of `plugin_uuid`
(`unsigned char uuid[16]`), which is the whole storage of the struct. -/
def PLUGIN_UUID_BYTES : Nat := 16

structure plugin_uuid where
  uuid : { l : List Nat // l.length = PLUGIN_UUID_BYTES }
  deriving DecidableEq

def MAX_PLUGIN_PLANES : Nat := 4

structure PluginComponent where
  data : Nat
  stride : Nat
  width : Nat
  bytes_per_element : Nat
  deriving DecidableEq, Repr

structure PluginFrame where
  data_type : PluginDataType
  channels : Nat
  nb_samples : Nat
  width : Nat
  height : Nat
  colour_format : ColourFormat
  has_alpha : Nat
  aspect_ratio : PluginRational
  format : List Nat
  buffer : Nat
  buffer_size : Nat
  components : { l : List PluginComponent // l.length = MAX_PLUGIN_PLANES }
  stream_uuid : plugin_uuid
  frame_index : Nat
  origination_time : Nat
  bit_depth : Nat
  planes : Nat
  is_planar : Nat
  time_base : PluginRational
  LogMessage : List Nat
  deriving DecidableEq

/-- The indices of the active planes of a frame: `planes` is the number of
planes active, so these are `0, ..., planes - 1`. -/
def active_planes (f : PluginFrame) : List Nat := List.range f.planes

/-- Modelled from the spec: the clauses of the frame invariant on the number
of active planes, which the header states nowhere: `1 ≤ planes ≤ 4`, and
`is_planar == 0` implies exactly one active component. -/
def frame_plane_invariant (f : PluginFrame) : Prop :=
  1 ≤ f.planes ∧ f.planes ≤ 4 ∧ (f.is_planar = 0 → (active_planes f).length = 1)

instance (f : PluginFrame) : Decidable (frame_plane_invariant f) := by
  unfold frame_plane_invariant; infer_instance

/-- The format that the comment on `PluginFrame.stream_uuid` documents. -/
def STREAM_UUID_FORMAT : String := "XXXXXXXX-XXXX-XXXX-XXXX-XXXXXXXXXXXX"

/-- Bytes an ASCIIZ string occupies: its characters and the terminating zero. -/
def asciiz_size (s : String) : Nat := s.length + 1

/-- Whether a text follows the documented format: the same length, a hyphen
where the format has one and a hexadecimal digit where it has an `X`. -/
def matches_uuid_format (s : String) : Bool :=
  s.length == STREAM_UUID_FORMAT.length &&
  (List.zip s.toList STREAM_UUID_FORMAT.toList).all
    (fun p => if p.2 == '-' then p.1 == '-' else p.1.isDigit || ('a' ≤ p.1 && p.1 ≤ 'f')
      || ('A' ≤ p.1 && p.1 ≤ 'F'))

/-- Whether an ASCIIZ string fits in the storage of a `plugin_uuid`. -/
def fits_plugin_uuid (s : String) : Bool := asciiz_size s ≤ PLUGIN_UUID_BYTES

/-! ## Return codes (plugins.h, lines 125-134) -/

inductive PluginReturnCode where
  | prcOpenFailed
  | prcDestroyFailed
  | prcInstanceNotFound
  | prcSmallBuffer
  | prcError
  | prcFrameNotReady
  | prcOK
  deriving DecidableEq, Repr

open PluginReturnCode

/-- The numeric value of each enumerator. -/
def PluginReturnCode.toInt : PluginReturnCode → Int
  | prcOpenFailed => -200
  | prcDestroyFailed => -199
  | prcInstanceNotFound => -198
  | prcSmallBuffer => -197
  | prcError => -196
  | prcFrameNotReady => -195
  | prcOK => 0

/-- All enumerators, in declaration order. -/
def PluginReturnCode.all : List PluginReturnCode :=
  [prcOpenFailed, prcDestroyFailed, prcInstanceNotFound, prcSmallBuffer, prcError,
   prcFrameNotReady, prcOK]

/-- The seven canonical outcomes of the return-code layer. -/
inductive Outcome where
  | OK
  | OpenFailed
  | DestroyFailed
  | InstanceNotFound
  | SmallBuffer
  | FrameNotReady
  | Error
  deriving DecidableEq, Repr

/-- The enumerator that carries each canonical outcome (same name, `prc`
prefix). -/
def Outcome.code : Outcome → PluginReturnCode
  | .OK => prcOK
  | .OpenFailed => prcOpenFailed
  | .DestroyFailed => prcDestroyFailed
  | .InstanceNotFound => prcInstanceNotFound
  | .SmallBuffer => prcSmallBuffer
  | .FrameNotReady => prcFrameNotReady
  | .Error => prcError

/-! ## Result types of the operations (plugins.h, lines 136-232) -/

/-- What `open_fn` reports: "a handle for the opened stream on success, error
code (PluginReturnCode) on failure". -/
inductive OpenResult where
  | handle (h : Nat)
  | failure (e : PluginReturnCode)
  deriving DecidableEq, Repr

/-- The `PLUGIN_HANDLE` (`int32_t`) value that carries a result of `open_fn`. -/
def OpenResult.toHandle : OpenResult → Int
  | .handle h => int32_of h
  | .failure e => int32_of e.toInt

/-- A result that the return type can carry as meant: a handle within
`int32_t`, or a failure with a code other than `prcOK`. -/
def OpenResult.representable : OpenResult → Prop
  | .handle h => h ≤ INT32_MAX
  | .failure e => e ≠ prcOK

instance (r : OpenResult) : Decidable r.representable := by
  cases r <;> unfold OpenResult.representable <;> infer_instance

def OpenResult.isHandle : OpenResult → Bool
  | .handle _ => true
  | .failure _ => false

/-- A `PLUGIN_HANDLE` value is a handle when it is non-negative. -/
def is_valid_handle (r : Int) : Bool := decide (0 ≤ r)

/-- What `query_config_fn` reports: "size of configuration string read on
success, error code on failure". -/
inductive QueryConfigResult where
  | length (n : Nat)
  | failure (e : PluginReturnCode)
  deriving DecidableEq, Repr

/-- The `int32_t` value that carries a result of `query_config_fn`. -/
def QueryConfigResult.toInt32 : QueryConfigResult → Int
  | .length n => int32_of n
  | .failure e => int32_of e.toInt

/-- What `get_queue_depth_fn` reports: "< 0 error code, >= 0 number of frames
queued". -/
inductive QueueDepthResult where
  | count (n : Nat)
  | failure (e : PluginReturnCode)
  deriving DecidableEq, Repr

/-- The `int64_t` value that carries a result of `get_queue_depth_fn`; an
error code, an `int`, is sign-extended. -/
def QueueDepthResult.toInt64 : QueueDepthResult → Int
  | .count n => int64_of n
  | .failure e => int64_of (int32_of e.toInt)

def QueueDepthResult.representable : QueueDepthResult → Prop
  | .count n => n ≤ INT64_MAX
  | .failure e => e ≠ prcOK

instance (r : QueueDepthResult) : Decidable r.representable := by
  cases r <;> unfold QueueDepthResult.representable <;> infer_instance

def QueueDepthResult.isFailure : QueueDepthResult → Bool
  | .count _ => false
  | .failure _ => true

/-- The caller's reading of a `get_queue_depth_fn` result: an error exactly
when it is negative. -/
def queue_depth_is_error (r : Int) : Bool := decide (r < 0)

/-- The results that the comment on `is_frame_ready_fn` documents:
"1 true 0 no". -/
def is_frame_ready_documented (ready : Bool) : Int := if ready then 1 else 0

/-- Modelled from the spec: the return code that `is_frame_ready` gives for
each of the two outcomes, `OK` when a frame is ready and `FrameNotReady` when
none is (the header declares the type of the function only). -/
def is_frame_ready_code (ready : Bool) : PluginReturnCode :=
  if ready then prcOK else prcFrameNotReady

/-! ## Handle table and driver dispatch

`plugins.h` declares the operations as function-pointer types only; the
definitions of this section are modelled from the specification (sections 4.1,
4.3 and 4.4). Configuration strings and buffers are lists of bytes. -/

/-- Modelled from the spec: the Driver behind a stream, which the header does
not declare. It is the table of a plugin's own entry points, one per capability,
over a driver state `σ`; `teardown` tells whether tearing the driver down
succeeds. -/
structure DriverOps (σ : Type) where
  is_frame_ready : σ → PluginReturnCode
  free_frame : σ → PluginFrame → PluginReturnCode × σ
  read : σ → PluginFrame → PluginReturnCode × PluginFrame × σ
  read_timeout : σ → PluginFrame → Nat → PluginReturnCode × PluginFrame × σ
  write : σ → PluginFrame → PluginReturnCode × σ
  seek : σ → Nat → PluginReturnCode × σ
  queue_depth : σ → Nat
  teardown : σ → Bool

/-- Modelled from the spec: a Stream (Driver instance), which the header does
not declare. It is bound to one handle and owns its configuration string. -/
structure Stream (σ : Type) where
  ops : DriverOps σ
  state : σ
  configuration : List Nat
  uuid : plugin_uuid

/-- Modelled from the spec: the Handle Table, which the header does not
declare: the mapping from the handles in use to their streams. -/
abbrev HandleTable (σ : Type) : Type := List (Nat × Stream σ)

variable {σ : Type}

/-- Modelled from the spec: the internal lookup of the Handle Table (absent
from the header), used by every operation that takes a handle. -/
def lookup (t : HandleTable σ) (h : Int) : Option (Stream σ) :=
  (t.find? (fun e => decide ((e.1 : Int) = h))).map (fun e => e.2)

/-- Modelled from the spec: removal of a handle entry (absent from the
header). -/
def remove (t : HandleTable σ) (h : Int) : HandleTable σ :=
  t.filter (fun e => decide ((e.1 : Int) ≠ h))

/-- Modelled from the spec: storing the driver state an operation leaves
(absent from the header). -/
def update (t : HandleTable σ) (h : Int) (s : σ) : HandleTable σ :=
  t.map (fun e => if (e.1 : Int) = h then (e.1, { e.2 with state := s }) else e)

/-- Modelled from the spec: `close` (the header declares only its type,
`close_fn`). `InstanceNotFound` when the handle is absent; otherwise the
driver is torn down and the entry removed whether or not the teardown
succeeded. -/
def close_fn (t : HandleTable σ) (h : Int) : PluginReturnCode × HandleTable σ :=
  match lookup t h with
  | none => (prcInstanceNotFound, t)
  | some s => (if s.ops.teardown s.state then prcOK else prcDestroyFailed, remove t h)

/-- Modelled from the spec: `is_frame_ready` (the header declares only its
type). -/
def is_frame_ready_fn (t : HandleTable σ) (h : Int) : PluginReturnCode :=
  match lookup t h with
  | none => prcInstanceNotFound
  | some s => s.ops.is_frame_ready s.state

/-- Modelled from the spec: `free_frame` (the header declares only its
type). -/
def free_frame_fn (t : HandleTable σ) (h : Int) (frame : PluginFrame) :
    PluginReturnCode × HandleTable σ :=
  match lookup t h with
  | none => (prcInstanceNotFound, t)
  | some s => ((s.ops.free_frame s.state frame).1, update t h (s.ops.free_frame s.state frame).2)

/-- Modelled from the spec: `read` (the header declares only its type). The
frame slot is returned as the driver leaves it. -/
def read_fn (t : HandleTable σ) (h : Int) (frame : PluginFrame) :
    PluginReturnCode × PluginFrame × HandleTable σ :=
  match lookup t h with
  | none => (prcInstanceNotFound, frame, t)
  | some s =>
    ((s.ops.read s.state frame).1, (s.ops.read s.state frame).2.1,
      update t h (s.ops.read s.state frame).2.2)

/-- Modelled from the spec: `read_timeout` (the header declares only its
type). -/
def read_timeout_fn (t : HandleTable σ) (h : Int) (frame : PluginFrame) (timeout_ns : Nat) :
    PluginReturnCode × PluginFrame × HandleTable σ :=
  match lookup t h with
  | none => (prcInstanceNotFound, frame, t)
  | some s =>
    ((s.ops.read_timeout s.state frame timeout_ns).1,
      (s.ops.read_timeout s.state frame timeout_ns).2.1,
      update t h (s.ops.read_timeout s.state frame timeout_ns).2.2)

/-- Modelled from the spec: `write` (the header declares only its type). -/
def write_fn (t : HandleTable σ) (h : Int) (frame : PluginFrame) :
    PluginReturnCode × HandleTable σ :=
  match lookup t h with
  | none => (prcInstanceNotFound, t)
  | some s => ((s.ops.write s.state frame).1, update t h (s.ops.write s.state frame).2)

/-- Modelled from the spec: `seek` (the header declares only its type). -/
def seek_fn (t : HandleTable σ) (h : Int) (index : Nat) : PluginReturnCode × HandleTable σ :=
  match lookup t h with
  | none => (prcInstanceNotFound, t)
  | some s => ((s.ops.seek s.state index).1, update t h (s.ops.seek s.state index).2)

/-- Modelled from the spec: `query_uuid` (the header declares only its type).
The caller's `uuid` is left as it was when the handle is absent. -/
def query_uuid_fn (t : HandleTable σ) (h : Int) (uuid : plugin_uuid) :
    PluginReturnCode × plugin_uuid :=
  match lookup t h with
  | none => (prcInstanceNotFound, uuid)
  | some s => (prcOK, s.uuid)

/-- Modelled from the spec: `query_config` (the header declares only its
type). Writes the stream's configuration string at the start of the buffer and
reports its length; `SmallBuffer` when `buffer_size` is less than that length,
the buffer then being left as it was. -/
def query_config_fn (t : HandleTable σ) (h : Int) (buffer : List Nat) (buffer_size : Nat) :
    QueryConfigResult × List Nat :=
  match lookup t h with
  | none => (.failure prcInstanceNotFound, buffer)
  | some s =>
    if s.configuration.length ≤ buffer_size then
      (.length s.configuration.length, s.configuration ++ buffer.drop s.configuration.length)
    else (.failure prcSmallBuffer, buffer)

/-- Modelled from the spec: `get_queue_depth` (the header declares only its
type). -/
def get_queue_depth_fn (t : HandleTable σ) (h : Int) : QueueDepthResult :=
  match lookup t h with
  | none => .failure prcInstanceNotFound
  | some s => .count (s.ops.queue_depth s.state)

/-! ## Sample values -/

/-- The all-zero stream identifier. -/
def zero_uuid : plugin_uuid := ⟨⟨List.replicate 16 0, rfl⟩⟩

/-- A component that views nothing. -/
def empty_component : PluginComponent := ⟨0, 0, 0, 0⟩

/-- A frame with no data, the given number of active planes and the given
`is_planar` flag. -/
def blank_frame (planes is_planar : Nat) : PluginFrame :=
  { data_type := .pdtNone, channels := 0, nb_samples := 0, width := 0, height := 0,
    colour_format := .cfRGB, has_alpha := 0, aspect_ratio := ⟨1, 1⟩, format := [],
    buffer := 0, buffer_size := 0,
    components := ⟨List.replicate 4 empty_component, rfl⟩,
    stream_uuid := zero_uuid, frame_index := 0, origination_time := 0, bit_depth := 0,
    planes := planes, is_planar := is_planar, time_base := ⟨1, 25⟩, LogMessage := [] }

/-- A planar YUV 4:2:0 frame of 4 by 2 pixels: three active planes laid out
back to back in a buffer of 12 bytes. -/
def planar_yuv_frame : PluginFrame :=
  { blank_frame 3 1 with
    data_type := .pdtVideo, width := 4, height := 2, colour_format := .cfYUV,
    buffer_size := 12, bit_depth := 8,
    components := ⟨[⟨0, 4, 4, 1⟩, ⟨8, 2, 2, 1⟩, ⟨10, 2, 2, 1⟩, empty_component], rfl⟩ }

/-- A packed RGB frame of 4 by 2 pixels: one active component that covers the
buffer of 24 bytes. -/
def packed_rgb_frame : PluginFrame :=
  { blank_frame 1 0 with
    data_type := .pdtVideo, width := 4, height := 2, colour_format := .cfRGB,
    buffer_size := 24, bit_depth := 8,
    components := ⟨[⟨0, 12, 4, 3⟩, empty_component, empty_component, empty_component], rfl⟩ }

/-- A driver without state that has no frame, supports no capability, and
whose teardown succeeds or fails as told. -/
def idle_driver (teardown_ok : Bool) : DriverOps Unit :=
  { is_frame_ready := fun _ => prcFrameNotReady,
    free_frame := fun s _ => (prcError, s),
    read := fun s f => (prcFrameNotReady, f, s),
    read_timeout := fun s f _ => (prcFrameNotReady, f, s),
    write := fun s _ => (prcError, s),
    seek := fun s _ => (prcError, s),
    queue_depth := fun _ => 0,
    teardown := fun _ => teardown_ok }

/-- A table with one stream, under handle 0, whose teardown fails. -/
def failing_teardown_table : HandleTable Unit :=
  [(0, { ops := idle_driver false, state := (), configuration := [97, 61, 49],
         uuid := zero_uuid })]

/-! ## Integer conversions -/

theorem int32_of_eq_self (x : Int) (hlo : -2147483648 ≤ x) (hhi : x ≤ 2147483647) :
    int32_of x = x := by
  unfold int32_of; omega

theorem int64_of_eq_self (x : Int) (hlo : -9223372036854775808 ≤ x)
    (hhi : x ≤ 9223372036854775807) : int64_of x = x := by
  unfold int64_of; omega

theorem toInt_bounds (e : PluginReturnCode) : -200 ≤ e.toInt ∧ e.toInt ≤ 0 := by
  cases e <;> simp [PluginReturnCode.toInt]

theorem toInt_neg_of_ne_ok (e : PluginReturnCode) (he : e ≠ prcOK) : e.toInt ≤ -195 := by
  cases e <;> simp [PluginReturnCode.toInt] at he ⊢

theorem int32_of_toInt (e : PluginReturnCode) : int32_of e.toInt = e.toInt := by
  have hb := toInt_bounds e
  exact int32_of_eq_self _ (by omega) (by omega)

/-! ## Return codes and result types -/

/-- C1: every return code other than `prcOK` is strictly negative as a
`PLUGIN_HANDLE`, so it equals no valid handle (an integer `h ≥ 0`), `prcOpenFailed`
in particular; and a result of `open` is a handle exactly when its
`PLUGIN_HANDLE` value is non-negative. -/
theorem open_result_handle_iff_nonneg (e : PluginReturnCode) (he : e ≠ prcOK) (h : Int)
    (hh : 0 ≤ h) (r : OpenResult) (hr : r.representable) :
    int32_of e.toInt < 0 ∧ int32_of e.toInt ≠ h ∧ int32_of prcOpenFailed.toInt ≠ h ∧
    is_valid_handle h = true ∧ is_valid_handle (int32_of e.toInt) = false ∧
    (r.isHandle = true ↔ 0 ≤ r.toHandle) ∧
    (r.isHandle = true ↔ is_valid_handle r.toHandle = true) := by
  have h1 := toInt_neg_of_ne_ok e he
  have h2 := int32_of_toInt e
  have h3 : int32_of prcOpenFailed.toInt = -200 := by decide
  have key : r.isHandle = true ↔ 0 ≤ r.toHandle := by
    cases r with
    | handle n =>
      have hn : (n : Int) ≤ 2147483647 := by
        have : n ≤ 2147483647 := hr
        omega
      simp [OpenResult.isHandle, OpenResult.toHandle,
        int32_of_eq_self (n : Int) (by omega) hn]
    | failure c =>
      have hc := toInt_neg_of_ne_ok c hr
      simp only [OpenResult.isHandle, OpenResult.toHandle, int32_of_toInt]
      constructor
      · intro hf; cases hf
      · intro hf; omega
  refine ⟨by omega, by omega, by omega, by simp [is_valid_handle, hh],
    by simp [is_valid_handle]; omega, key, ?_⟩
  simp [is_valid_handle, key]

theorem open_result_handle_iff_nonneg_witness :
    int32_of prcOpenFailed.toInt < 0 ∧ int32_of prcOpenFailed.toInt ≠ 0 ∧
    int32_of prcOpenFailed.toInt ≠ 0 ∧
    is_valid_handle 0 = true ∧ is_valid_handle (int32_of prcOpenFailed.toInt) = false ∧
    ((OpenResult.handle 7).isHandle = true ↔ 0 ≤ (OpenResult.handle 7).toHandle) ∧
    ((OpenResult.handle 7).isHandle = true ↔
      is_valid_handle (OpenResult.handle 7).toHandle = true) :=
  open_result_handle_iff_nonneg prcOpenFailed (by decide) 0 (by decide) (.handle 7)
    (by decide)

/-- C2: every return code other than `prcOK`, sign-extended to the `int64_t`
result of `get_queue_depth`, is strictly negative and differs from every queue
depth `n ≥ 0` that `int64_t` represents; reading a result as an error exactly
when it is negative takes every count for a count and every error for an
error. -/
theorem queue_depth_error_iff_negative (e : PluginReturnCode) (he : e ≠ prcOK) (n : Nat)
    (hn : n ≤ INT64_MAX) (r : QueueDepthResult) (hr : r.representable) :
    int64_of (int32_of e.toInt) < 0 ∧ int64_of (n : Int) = n ∧
    int64_of (n : Int) ≠ int64_of (int32_of e.toInt) ∧
    (queue_depth_is_error r.toInt64 = true ↔ r.isFailure = true) := by
  have h1 := toInt_neg_of_ne_ok e he
  have hb := toInt_bounds e
  have h2 : int64_of (int32_of e.toInt) = e.toInt := by
    rw [int32_of_toInt]; exact int64_of_eq_self _ (by omega) (by omega)
  have hn' : (n : Int) ≤ 9223372036854775807 := by
    have : n ≤ 9223372036854775807 := hn
    omega
  have h3 : int64_of (n : Int) = n := int64_of_eq_self _ (by omega) hn'
  refine ⟨by omega, h3, by omega, ?_⟩
  cases r with
  | count m =>
    have hm : (m : Int) ≤ 9223372036854775807 := by
      have : m ≤ 9223372036854775807 := hr
      omega
    simp [queue_depth_is_error, QueueDepthResult.toInt64, QueueDepthResult.isFailure,
      int64_of_eq_self (m : Int) (by omega) hm]
  | failure c =>
    have hc := toInt_neg_of_ne_ok c hr
    have hcb := toInt_bounds c
    have h4 : int64_of (int32_of c.toInt) = c.toInt := by
      rw [int32_of_toInt]; exact int64_of_eq_self _ (by omega) (by omega)
    simp only [queue_depth_is_error, QueueDepthResult.toInt64, QueueDepthResult.isFailure, h4]
    simp; omega

theorem queue_depth_error_iff_negative_witness :
    int64_of (int32_of prcInstanceNotFound.toInt) < 0 ∧ int64_of ((198 : Nat) : Int) = (198 : Nat)
    ∧ int64_of ((198 : Nat) : Int) ≠ int64_of (int32_of prcInstanceNotFound.toInt) ∧
    (queue_depth_is_error (QueueDepthResult.failure prcError).toInt64 = true ↔
      (QueueDepthResult.failure prcError).isFailure = true) :=
  queue_depth_error_iff_negative prcInstanceNotFound (by decide) 198 (by decide)
    (.failure prcError) (by decide)

/-- C3: each of the seven canonical outcomes is carried by an enumerator of
`PluginReturnCode`, every enumerator carries one, and the numeric values are
pairwise distinct: the map from outcome to integer is injective. -/
theorem outcome_value_injective :
    Function.Injective (fun o : Outcome => o.code.toInt) ∧
    Function.Injective PluginReturnCode.toInt ∧
    (∀ o : Outcome, o.code ∈ PluginReturnCode.all) ∧
    (∀ e : PluginReturnCode, ∃ o : Outcome, o.code = e) ∧
    (PluginReturnCode.all.map PluginReturnCode.toInt).Nodup ∧
    PluginReturnCode.all.length = 7 := by
  refine ⟨?_, ?_, ?_, ?_, by decide, by decide⟩
  · intro a b hab
    cases a <;> cases b <;> first | rfl | (exact absurd hab (by decide))
  · intro a b hab
    cases a <;> cases b <;> first | rfl | (exact absurd hab (by decide))
  · intro o; cases o <;> decide
  · intro e
    cases e
    · exact ⟨.OpenFailed, rfl⟩
    · exact ⟨.DestroyFailed, rfl⟩
    · exact ⟨.InstanceNotFound, rfl⟩
    · exact ⟨.SmallBuffer, rfl⟩
    · exact ⟨.Error, rfl⟩
    · exact ⟨.FrameNotReady, rfl⟩
    · exact ⟨.OK, rfl⟩

/-- C4, as stated, fails: a configuration length of `2^32 - 200`, within a
`buffer_size` of `UINT32_MAX`, is carried by the `int32_t` result of
`query_config` as `-200`, which is negative, is not the length, and is the
value of `prcOpenFailed`. -/
theorem query_config_length_wraps_to_error_code :
    (4294967096 : Nat) ≤ UINT32_MAX ∧
    (QueryConfigResult.length 4294967096).toInt32 = -200 ∧
    (QueryConfigResult.length 4294967096).toInt32 = prcOpenFailed.toInt ∧
    (QueryConfigResult.length 4294967096).toInt32 =
      (QueryConfigResult.failure prcOpenFailed).toInt32 ∧
    ¬ (∀ buffer_size n : Nat, buffer_size ≤ UINT32_MAX → n ≤ buffer_size →
        (QueryConfigResult.length n).toInt32 = n ∧
        0 ≤ (QueryConfigResult.length n).toInt32 ∧
        ∀ e : PluginReturnCode, e ≠ prcOK →
          (QueryConfigResult.length n).toInt32 ≠ (QueryConfigResult.failure e).toInt32) := by
  refine ⟨by decide, by decide, by decide, by decide, ?_⟩
  intro hall
  have h := (hall UINT32_MAX 4294967096 (by decide) (by decide)).2.1
  exact absurd h (by decide)

/-- C4, amended: for every `buffer_size` of `uint32_t` and every configuration
length `n ≤ buffer_size` that is at most `INT32_MAX`, the success result of
`query_config` carried in `int32_t` equals `n`, is non-negative, and differs
from every return code other than `prcOK`. -/
theorem query_config_length_not_error (buffer_size n : Nat) (_hsize : buffer_size ≤ UINT32_MAX)
    (_hn : n ≤ buffer_size) (hmax : n ≤ INT32_MAX) (e : PluginReturnCode) (he : e ≠ prcOK) :
    (QueryConfigResult.length n).toInt32 = n ∧
    0 ≤ (QueryConfigResult.length n).toInt32 ∧
    (QueryConfigResult.length n).toInt32 ≠ e.toInt ∧
    (QueryConfigResult.length n).toInt32 ≠ (QueryConfigResult.failure e).toInt32 := by
  have hn' : (n : Int) ≤ 2147483647 := by
    have : n ≤ 2147483647 := hmax
    omega
  have h1 : (QueryConfigResult.length n).toInt32 = n := by
    simp only [QueryConfigResult.toInt32]
    exact int32_of_eq_self _ (by omega) hn'
  have h2 := toInt_neg_of_ne_ok e he
  have h3 : (QueryConfigResult.failure e).toInt32 = e.toInt := by
    simp only [QueryConfigResult.toInt32]
    exact int32_of_toInt e
  refine ⟨h1, by omega, by omega, by omega⟩

theorem query_config_length_not_error_witness :
    (QueryConfigResult.length 195).toInt32 = (195 : Nat) ∧
    0 ≤ (QueryConfigResult.length 195).toInt32 ∧
    (QueryConfigResult.length 195).toInt32 ≠ prcFrameNotReady.toInt ∧
    (QueryConfigResult.length 195).toInt32 ≠
      (QueryConfigResult.failure prcFrameNotReady).toInt32 :=
  query_config_length_not_error 4294967295 195 (by decide) (by decide) (by decide)
    prcFrameNotReady (by decide)

/-- C8: the documented results of `is_frame_ready`, 1 for ready and 0 for not
ready, against the return codes of the two outcomes: ready is `prcOK`, whose
value is 0, not ready is `prcFrameNotReady`, whose value is -195, and no
enumerator of the declared return type has the value 1. -/
theorem is_frame_ready_documented_values_differ :
    is_frame_ready_documented true = 1 ∧ (is_frame_ready_code true).toInt = 0 ∧
    is_frame_ready_documented false = 0 ∧ (is_frame_ready_code false).toInt = -195 ∧
    is_frame_ready_documented true ≠ (is_frame_ready_code true).toInt ∧
    is_frame_ready_documented false ≠ (is_frame_ready_code false).toInt ∧
    is_frame_ready_documented false = (is_frame_ready_code true).toInt ∧
    ∀ e : PluginReturnCode, e.toInt ≠ is_frame_ready_documented true := by
  refine ⟨by decide, by decide, by decide, by decide, by decide, by decide, by decide, ?_⟩
  intro e; cases e <;> decide

/-! ## Version -/

/-- C9, as stated, fails: in `int` the versions 429497.0.0 and 0.27.4 combine
to the same number, 2704, and 214748.99.99 combines to a negative number, below
that of 1.0.0. -/
theorem plugins_version_wraps_in_int :
    plugins_version 429497 0 0 = 2704 ∧ plugins_version 0 27 4 = 2704 ∧
    ((429497, 0, 0) : Nat × Nat × Nat) ≠ (0, 27, 4) ∧
    version_lex_lt (0, 27, 4) (429497, 0, 0) ∧
    ¬ (plugins_version 0 27 4 < plugins_version 429497 0 0) ∧
    plugins_version 214748 99 99 = -2147477297 ∧ plugins_version 1 0 0 = 10000 ∧
    version_lex_lt (1, 0, 0) (214748, 99, 99) ∧
    ¬ (plugins_version 1 0 0 < plugins_version 214748 99 99) := by
  refine ⟨by decide, by decide, by decide, by decide, by decide, by decide, by decide,
    by decide, by decide⟩

theorem version_fits_int_of_major_le (major minor patch : Nat) (hmajor : major ≤ 214747)
    (hminor : minor ≤ 99) (hpatch : patch ≤ 99) : version_fits_int major minor patch := by
  unfold version_fits_int INT32_MAX; omega

theorem plugins_version_eq_of_fits (major minor patch : Nat)
    (hfit : version_fits_int major minor patch) :
    plugins_version major minor patch = ((major * 10000 + minor * 100 + patch : Nat) : Int) := by
  unfold version_fits_int INT32_MAX at hfit
  unfold plugins_version int32_of
  omega

/-- C9, amended: for version triples whose minor and patch numbers are at most
99 and whose combined numbers fit in `int` (at most `INT32_MAX`), the combined
number is `major*10000 + minor*100 + patch`, that of one triple is less than
that of the other exactly when the first triple is lexicographically less,
equal combined numbers mean equal triples, and the declared version 0.0.2
combines to 2. -/
theorem plugins_version_order (major minor patch major2 minor2 patch2 : Nat)
    (hminor : minor ≤ 99) (hpatch : patch ≤ 99) (hminor2 : minor2 ≤ 99)
    (hpatch2 : patch2 ≤ 99) (hfit : version_fits_int major minor patch)
    (hfit2 : version_fits_int major2 minor2 patch2) :
    plugins_version major minor patch = ((major * 10000 + minor * 100 + patch : Nat) : Int) ∧
    (plugins_version major minor patch < plugins_version major2 minor2 patch2 ↔
      version_lex_lt (major, minor, patch) (major2, minor2, patch2)) ∧
    (plugins_version major minor patch = plugins_version major2 minor2 patch2 ↔
      (major, minor, patch) = (major2, minor2, patch2)) ∧
    PLUGINS_VERSION = 2 := by
  have h1 := plugins_version_eq_of_fits major minor patch hfit
  have h2 := plugins_version_eq_of_fits major2 minor2 patch2 hfit2
  refine ⟨h1, ?_, ?_, by decide⟩
  · rw [h1, h2]
    simp only [version_lex_lt]
    constructor
    · intro h; omega
    · intro h; omega
  · rw [h1, h2]
    simp only [Prod.mk.injEq]
    constructor
    · intro h; omega
    · intro h; omega

theorem plugins_version_order_witness :
    plugins_version 214747 99 99 = ((214747 * 10000 + 99 * 100 + 99 : Nat) : Int) ∧
    (plugins_version 214747 99 99 < plugins_version 214748 36 47 ↔
      version_lex_lt (214747, 99, 99) (214748, 36, 47)) ∧
    (plugins_version 214747 99 99 = plugins_version 214748 36 47 ↔
      ((214747, 99, 99) : Nat × Nat × Nat) = (214748, 36, 47)) ∧
    PLUGINS_VERSION = 2 :=
  plugins_version_order 214747 99 99 214748 36 47 (by decide) (by decide) (by decide)
    (by decide) (by decide) (by decide)

/-! ## Frames -/

/-- C7: for every frame that satisfies the frame invariant (`1 ≤ planes ≤ 4`,
and a packed frame has exactly one active component), the components array has
length `MAX_PLUGIN_PLANES = 4`, every active plane index `i < planes` is a
valid index into it, so the lookup of an active component gives a component of
the array, and a packed frame (`is_planar == 0`) has exactly one active
component, at index 0. -/
theorem active_plane_index_valid (f : PluginFrame) (hinv : frame_plane_invariant f) :
    f.components.1.length = MAX_PLUGIN_PLANES ∧ MAX_PLUGIN_PLANES = 4 ∧
    (∀ i : Nat, i ∈ active_planes f ↔ i < f.planes) ∧
    (∀ i : Nat, i < f.planes →
      i < f.components.1.length ∧ ∃ c, f.components.1[i]? = some c ∧ c ∈ f.components.1) ∧
    0 ∈ active_planes f ∧
    (f.is_planar = 0 →
      f.planes = 1 ∧ active_planes f = [0] ∧ ∀ i : Nat, i ∈ active_planes f ↔ i = 0) := by
  obtain ⟨hlo, hhi, hpacked⟩ := hinv
  have hlen : f.components.1.length = 4 := f.components.2
  refine ⟨f.components.2, rfl, ?_, ?_, ?_, ?_⟩
  · intro i; simp [active_planes]
  · intro i hi
    have hi4 : i < f.components.1.length := by omega
    exact ⟨hi4, f.components.1[i], List.getElem?_eq_getElem hi4, List.getElem_mem hi4⟩
  · simp [active_planes]; omega
  · intro hp
    have hone : f.planes = 1 := by
      have := hpacked hp
      simpa [active_planes] using this
    refine ⟨hone, ?_, ?_⟩
    · unfold active_planes; rw [hone]; rfl
    · intro i; simp [active_planes, hone]

theorem active_plane_index_valid_witness :
    (planar_yuv_frame.planes = 3 ∧
      ∀ i : Nat, i < planar_yuv_frame.planes →
        i < planar_yuv_frame.components.1.length ∧
        ∃ c, planar_yuv_frame.components.1[i]? = some c ∧ c ∈ planar_yuv_frame.components.1) ∧
    (packed_rgb_frame.is_planar = 0 ∧ active_planes packed_rgb_frame = [0] ∧
      packed_rgb_frame.components.1[0]? = some ⟨0, 12, 4, 3⟩) :=
  ⟨⟨rfl, (active_plane_index_valid planar_yuv_frame (by decide)).2.2.2.1⟩,
   ⟨rfl, ((active_plane_index_valid packed_rgb_frame (by decide)).2.2.2.2.2 rfl).2.1, rfl⟩⟩

/-- C10: the documented content of `stream_uuid`, an ASCIIZ string in the
format `XXXXXXXX-XXXX-XXXX-XXXX-XXXXXXXXXXXX`, takes 37 bytes (36 characters and
the terminating zero), while the storage of `plugin_uuid` is 16 bytes: the
text of the all-zero UUID follows the format and does not fit. -/
theorem stream_uuid_text_exceeds_storage :
    STREAM_UUID_FORMAT.length = 36 ∧ asciiz_size STREAM_UUID_FORMAT = 37 ∧
    PLUGIN_UUID_BYTES = 16 ∧
    matches_uuid_format "00000000-0000-0000-0000-000000000000" = true ∧
    asciiz_size "00000000-0000-0000-0000-000000000000" = 37 ∧
    fits_plugin_uuid "00000000-0000-0000-0000-000000000000" = false ∧
    zero_uuid.uuid.1.length = 16 := by
  refine ⟨by decide, by decide, by decide, by decide, by decide, by decide, by decide⟩

/-! ## Handle table -/

theorem lookup_remove (t : HandleTable σ) (h : Int) : lookup (remove t h) h = none := by
  unfold lookup remove
  induction t with
  | nil => rfl
  | cons e t ih =>
    by_cases he : (e.1 : Int) = h
    · simp [List.filter_cons, he, ih]
    · simp [List.filter_cons, List.find?_cons, he, ih]

/-- C5: `close` returns `InstanceNotFound` on a handle that is not in the
table, and `OK` or `DestroyFailed` on one that is; in every case the handle is
absent from the table afterwards, so a second `close`, and every other
operation that takes the handle, returns `InstanceNotFound`. -/
theorem close_is_terminal (t : HandleTable σ) (h : Int) (frame : PluginFrame)
    (timeout_ns index : Nat) (uuid : plugin_uuid) (buffer : List Nat) (buffer_size : Nat) :
    (lookup t h = none → (close_fn t h).1 = prcInstanceNotFound ∧ (close_fn t h).2 = t) ∧
    (∀ s, lookup t h = some s →
      (close_fn t h).1 = (if s.ops.teardown s.state then prcOK else prcDestroyFailed) ∧
      ((close_fn t h).1 = prcOK ∨ (close_fn t h).1 = prcDestroyFailed)) ∧
    lookup (close_fn t h).2 h = none ∧
    (close_fn (close_fn t h).2 h).1 = prcInstanceNotFound ∧
    is_frame_ready_fn (close_fn t h).2 h = prcInstanceNotFound ∧
    (free_frame_fn (close_fn t h).2 h frame).1 = prcInstanceNotFound ∧
    (read_fn (close_fn t h).2 h frame).1 = prcInstanceNotFound ∧
    (read_timeout_fn (close_fn t h).2 h frame timeout_ns).1 = prcInstanceNotFound ∧
    (write_fn (close_fn t h).2 h frame).1 = prcInstanceNotFound ∧
    (seek_fn (close_fn t h).2 h index).1 = prcInstanceNotFound ∧
    (query_uuid_fn (close_fn t h).2 h uuid).1 = prcInstanceNotFound ∧
    (query_config_fn (close_fn t h).2 h buffer buffer_size).1 =
      .failure prcInstanceNotFound ∧
    get_queue_depth_fn (close_fn t h).2 h = .failure prcInstanceNotFound := by
  have habs : lookup (close_fn t h).2 h = none := by
    unfold close_fn
    cases hl : lookup t h with
    | none => simpa using hl
    | some s => simpa using lookup_remove t h
  refine ⟨?_, ?_, habs, ?_⟩
  · intro hl; simp [close_fn, hl]
  · intro s hl
    have hc : (close_fn t h).1 = (if s.ops.teardown s.state then prcOK else prcDestroyFailed) := by
      simp [close_fn, hl]
    refine ⟨hc, ?_⟩
    rw [hc]
    cases s.ops.teardown s.state <;> simp
  · generalize (close_fn t h).2 = t2 at habs
    refine ⟨?_, ?_, ?_, ?_, ?_, ?_, ?_, ?_, ?_, ?_⟩
    · simp [close_fn, habs]
    · simp [is_frame_ready_fn, habs]
    · simp [free_frame_fn, habs]
    · simp [read_fn, habs]
    · simp [read_timeout_fn, habs]
    · simp [write_fn, habs]
    · simp [seek_fn, habs]
    · simp [query_uuid_fn, habs]
    · simp [query_config_fn, habs]
    · simp [get_queue_depth_fn, habs]

theorem close_is_terminal_witness :
    (close_fn failing_teardown_table 0).1 = prcDestroyFailed ∧
    (close_fn failing_teardown_table 5).1 = prcInstanceNotFound ∧
    (close_fn (close_fn failing_teardown_table 0).2 0).1 = prcInstanceNotFound ∧
    (query_config_fn failing_teardown_table 0 [0, 0, 0, 0] 4).1 = .length 3 ∧
    (query_config_fn (close_fn failing_teardown_table 0).2 0 [0, 0, 0, 0] 4).1 =
      .failure prcInstanceNotFound :=
  have h0 := close_is_terminal failing_teardown_table 0 (blank_frame 1 0) 0 0 zero_uuid
    [0, 0, 0, 0] 4
  have h5 := close_is_terminal failing_teardown_table 5 (blank_frame 1 0) 0 0 zero_uuid
    [0, 0, 0, 0] 4
  ⟨(h0.2.1 _ rfl).1, (h5.1 rfl).1, h0.2.2.2.1, rfl, h0.2.2.2.2.2.2.2.2.2.2.2.1⟩

end Plugins
